import Mathlib

/-
Verification of the MyLocalBarista front-end logic: a shallow embedding of
the waitlist form handler (src/js/form-handler.js) and of the style
customization controller (src/js/customization.js), together with proofs of
the behavioral properties stated in the repository specification.

DOM state is represented explicitly: form fields are records of their
relevant attributes, the page's theme stylesheet links are a list of theme
names in document order, and the style panel's CSS variables, picker values
and displayed values are string fields of a record.  Side effects of a
submission run (network call, fallback-store write, shown messages, busy
flag changes) are collected into an explicit event trace, and the two
exception sources (the fetch call and the localStorage write) are modelled
by Boolean flags of an environment record, with exception propagation
modelled by Except.
-/

namespace MyLocalBarista

/- ===== JavaScript string primitives =====
   Kernel-computable models of the JS string operations the code uses.
   They operate on the character list so that concrete instances evaluate
   by definitional reduction. -/

/-- The JS whitespace class (regex backslash-s, also the set removed by
String.prototype.trim together with the line terminators). -/
def isJsSpace (c : Char) : Bool :=
  c == ' ' || c == '\t' || c == '\n' || c == '\x0b' || c == '\x0c' || c == '\r' ||
  c == ' ' || c == ' ' || (' ' ≤ c && c ≤ ' ') ||
  c == ' ' || c == ' ' || c == ' ' || c == ' ' ||
  c == '　' || c == '﻿'

/-- Model of JS String.prototype.trim: drop JS whitespace at both ends. -/
def jsTrim (s : String) : String :=
  String.mk (((s.toList.dropWhile isJsSpace).reverse.dropWhile isJsSpace).reverse)

/-- Model of JS String.prototype.toUpperCase (ASCII range, which is all the
code ever passes to it). -/
def jsToUpperCase (s : String) : String :=
  String.mk (s.toList.map Char.toUpper)

/-- Model of JS String.prototype.startsWith applied to the one-character
string "#", as used by hexToColor in customization.js. -/
def startsWithHash (s : String) : Bool :=
  match s.toList with
  | [] => false
  | c :: _ => c == '#'

/- ===== form-handler.js : validation ===== -/

/-- One form field as validateField sees it: its element id, the switch
discriminant field.type (or the lowercased tag name when type is empty),
the required attribute, and the current value.  An absent element
(getElementById returned null) is represented as none at the use sites. -/
structure Field where
  id : String
  typeTag : String
  required : Bool
  value : String
deriving DecidableEq

/-- Splitting a character list at every occurrence of the at-sign, the
decomposition the email regex is evaluated through. -/
def splitAtSign : List Char → List (List Char)
  | [] => [[]]
  | c :: cs =>
      match splitAtSign cs, c == '@' with
      | rest, true => [] :: rest
      | [], false => [[c]]
      | r :: rs, false => (c :: r) :: rs

/-- isValidEmail of form-handler.js: the anchored regex
caret [not-space-at]+ at [not-space-at]+ dot [not-space-at]+ dollar.
A string matches exactly when it has a single at-sign, no JS whitespace,
a non-empty local part, and a domain part with an interior dot (a dot that
is neither the domain's first nor its last character). -/
def isValidEmail (email : String) : Bool :=
  match splitAtSign email.toList with
  | [localPart, domainPart] =>
      !localPart.isEmpty && localPart.all (fun c => !isJsSpace c) &&
      !domainPart.isEmpty && domainPart.all (fun c => !isJsSpace c) &&
      ((domainPart.drop 1).dropLast.contains '.')
  | _ => false

/-- isValidZipCode of form-handler.js: the anchored regex of exactly five
decimal digits. -/
def isValidZipCode (zip : String) : Bool :=
  zip.length == 5 && zip.toList.all Char.isDigit

/-- validateField of form-handler.js.  Returns the pair of the returned
Boolean and the errorMessage local (the inline message shown when the
result is invalid; the empty string when no rule fired).  A null field
argument returns valid immediately. -/
def validateField : Option Field → Bool × String
  | none => (true, "")
  | some field =>
      let value := jsTrim field.value
      let r1 : Bool × String :=
        if field.required && value == "" then (false, "This field is required")
        else (true, "")
      if field.typeTag == "email" then
        if value != "" && !isValidEmail value then
          (false, "Please enter a valid email address")
        else r1
      else if field.typeTag == "text" then
        let r2 : Bool × String :=
          if field.id == "zip" && (value != "" && !isValidZipCode value) then
            (false, "Please enter a valid 5-digit zip code")
          else r1
        if field.id == "name" && (value != "" && decide (value.length < 2)) then
          (false, "Name must be at least 2 characters long")
        else r2
      else r1

/-- The tracked fields of the handler, in the insertion order of the
constructor's fields object (the order Object.values iterates them). -/
structure FormFields where
  name : Option Field
  email : Option Field
  zip : Option Field
  interest : Option Field
  espressoMachine : Option Field
  comments : Option Field
deriving DecidableEq

/-- The form state a submission attempt reads: the tracked fields plus the
result of the fresh querySelector for the checked espresso-machine radio
(used by validateForm's presence check and by collectFormData). -/
structure FormState where
  fields : FormFields
  radioSelected : Option Field
deriving DecidableEq

/-- Object.values of the handler's fields object. -/
def fieldValues (f : FormFields) : List (Option Field) :=
  [f.name, f.email, f.zip, f.interest, f.espressoMachine, f.comments]

/-- validateForm of form-handler.js: every non-null tracked field must pass
validateField, and the checked espresso-machine radio query must be
non-null (the presence check that also shows the aggregate radio error). -/
def validateForm (st : FormState) : Bool :=
  ((fieldValues st.fields).all fun field =>
    match field with
    | none => true
    | some f => (validateField (some f)).1) &&
  st.radioSelected.isSome

/- ===== form-handler.js : submission ===== -/

/-- The interestMapping lookup table of collectFormData. -/
def interestMapping : String → Option String
  | "training" => some "Training - Learn espresso & latte art"
  | "events" => some "Events - Barista for gatherings"
  | "machine-help" => some "Machine Help - Equipment maintenance"
  | "all" => some "All services interest me"
  | _ => none

/-- The espressoMachineMapping lookup table of collectFormData. -/
def espressoMachineMapping : String → Option String
  | "yes" => some "Yes, I have an espresso machine"
  | "no" => some "No, but I\x27m interested in getting one"
  | "considering" => some "I\x27m considering purchasing one"
  | _ => none

/-- The record collectFormData builds: the six form fields plus the
timestamp and the constant source marker. -/
structure FormData where
  name : String
  email : String
  zip : String
  interest : String
  espresso_machine : String
  comments : String
  timestamp : String
  source : String
deriving DecidableEq

/-- The optional-chain read pattern of collectFormData:
field?.value.trim() followed by the or-empty-string default. -/
def optValue : Option Field → String
  | none => ""
  | some f => jsTrim f.value

/-- The interest line of collectFormData: the mapped sentence when the raw
select value is in the table, otherwise the raw value passed through,
otherwise the empty string. -/
def interestOut : Option Field → String
  | none => ""
  | some f =>
      match interestMapping f.value with
      | some m => m
      | none => f.value

/-- The espresso-machine line of collectFormData: the checked radio's value
(or the empty string when none is checked), mapped through the table when
recognized and passed through unmapped otherwise. -/
def espressoOut (st : FormState) : String :=
  let ev :=
    match st.radioSelected with
    | none => ""
    | some f => f.value
  match espressoMachineMapping ev with
  | some m => m
  | none => ev

/-- collectFormData of form-handler.js; the submission instant is passed in
as the timestamp string new Date().toISOString() produced. -/
def collectFormData (st : FormState) (now : String) : FormData :=
  { name := optValue st.fields.name
    email := optValue st.fields.email
    zip := optValue st.fields.zip
    interest := interestOut st.fields.interest
    espresso_machine := espressoOut st
    comments := optValue st.fields.comments
    timestamp := now
    source := "MyLocalBarista Landing Page" }

/-- The GOOGLE_FORM_ENTRIES constant: the six pre-assigned Google Forms
entry identifiers. -/
structure EntryIds where
  name : String
  email : String
  zip : String
  interest : String
  espresso_machine : String
  comments : String
deriving DecidableEq

def GOOGLE_FORM_ENTRIES : EntryIds :=
  { name := "entry.847057752"
    email := "entry.508055351"
    zip := "entry.832508456"
    interest := "entry.1561535688"
    espresso_machine := "entry.1117044731"
    comments := "entry.1572710206" }

def GOOGLE_FORM_URL : String :=
  "https://docs.google.com/forms/d/e/1FAIpQLSflEWC2sYiZ8lwPJtkgjq3X5Jjfcz-KENfeVQS7xDWG4J9TJg/formResponse"

/-- The FormData body submitToGoogleForms appends, in append order: the six
entry-id keyed pairs and nothing else. -/
def googleFormBody (d : FormData) : List (String × String) :=
  [(GOOGLE_FORM_ENTRIES.name, d.name),
   (GOOGLE_FORM_ENTRIES.email, d.email),
   (GOOGLE_FORM_ENTRIES.zip, d.zip),
   (GOOGLE_FORM_ENTRIES.interest, d.interest),
   (GOOGLE_FORM_ENTRIES.espresso_machine, d.espresso_machine),
   (GOOGLE_FORM_ENTRIES.comments, d.comments)]

/-- The content of the mylocalbarista_waitlist localStorage key, abstracted
to the three cases storeFormDataLocally distinguishes: the key is absent
(getItem returns null and the catch-all literal parses to the empty array),
the key holds a string that does not yield a JS array (JSON.parse throws,
or the parsed value has no push method, so the statement throws), or the
key holds a serialized array of records. -/
inductive StoreContent
  | missing
  | corrupt
  | arr (entries : List FormData)
deriving DecidableEq

/-- The read step of storeFormDataLocally:
JSON.parse(localStorage.getItem(key) or-else the empty-array literal),
throwing on content that does not produce a pushable array. -/
def storeParse : StoreContent → Except Unit (List FormData)
  | StoreContent.missing => Except.ok []
  | StoreContent.corrupt => Except.error ()
  | StoreContent.arr l => Except.ok l

/-- storeFormDataLocally of form-handler.js: parse the existing log, push
the new record, write it back; every exception (parse failure, push on a
non-array, setItem failure) is caught and only logged, leaving the stored
content unchanged.  The function itself never raises: it is total and
returns the new stored content.  setItemFails models a storage write
failure (quota, disabled storage). -/
def storeFormDataLocally (formData : FormData) (store : StoreContent)
    (setItemFails : Bool) : StoreContent :=
  match storeParse store with
  | Except.error _ => store
  | Except.ok l => if setItemFails then store else StoreContent.arr (l ++ [formData])

/-- The two exception sources of a submission attempt: whether the fetch
call raises a transport exception, and whether the localStorage write
raises. -/
structure Env where
  fetchThrows : Bool
  storeSetFails : Bool
deriving DecidableEq

/-- The observable side effects of a submission attempt, in the order they
are performed. -/
inductive Event
  | clearAllErrors
  | generalError (msg : String)
  | setSubmitting (b : Bool)
  | fetchPost (url : String) (body : List (String × String))
  | storeAttempt (d : FormData)
  | successShown
  | formReset
  | submissionErrorShown
deriving DecidableEq

/-- submitToGoogleForms of form-handler.js: build the six-pair body, fetch
it to the fixed endpoint; when the fetch does not throw, append the record
to the local fallback log and return true; when it throws, append the
record to the local fallback log inside the catch and then rethrow.
Returns the outcome (ok, or error for the rethrown exception), the new
stored content, and the trace of performed effects. -/
def submitToGoogleForms (formData : FormData) (env : Env) (store : StoreContent) :
    Except Unit Bool × StoreContent × List Event :=
  let body := googleFormBody formData
  let store1 := storeFormDataLocally formData store env.storeSetFails
  if env.fetchThrows then
    (Except.error (), store1,
     [Event.fetchPost GOOGLE_FORM_URL body, Event.storeAttempt formData])
  else
    (Except.ok true, store1,
     [Event.fetchPost GOOGLE_FORM_URL body, Event.storeAttempt formData])

/-- handleSubmit of form-handler.js, as a function of the form state, the
busy flag isSubmitting, the exception environment, the current stored
fallback content and the submission instant.  Returns the busy flag after
the call, the stored content after the call, and the trace of performed
effects: an immediate return when already submitting; the aggregate error
and stop when validation fails; otherwise the busy window around the
remote attempt, with the success path (acknowledgment and form reset) or
the failure path (retry-suggesting error) and the finally clause clearing
the busy flag. -/
def handleSubmit (st : FormState) (isSubmitting : Bool) (env : Env)
    (store : StoreContent) (now : String) : Bool × StoreContent × List Event :=
  if isSubmitting then (isSubmitting, store, [])
  else if !validateForm st then
    (isSubmitting, store,
     [Event.clearAllErrors,
      Event.generalError "Please fix the errors above and try again"])
  else
    let formData := collectFormData st now
    match submitToGoogleForms formData env store with
    | (Except.ok _, store1, evs) =>
        (false, store1,
         [Event.clearAllErrors, Event.setSubmitting true] ++ evs ++
         [Event.successShown, Event.formReset, Event.setSubmitting false])
    | (Except.error _, store1, evs) =>
        (false, store1,
         [Event.clearAllErrors, Event.setSubmitting true] ++ evs ++
         [Event.submissionErrorShown, Event.setSubmitting false])

/-- Strict precedence of two events in a trace. -/
def eventBefore (a b : Event) (tr : List Event) : Prop :=
  ∃ i j, i < j ∧ tr.get? i = some a ∧ tr.get? j = some b

/- ===== customization.js : theme switching ===== -/

/-- The theme-related page state: the controller's currentTheme variable
and the theme stylesheet link elements present in the document, by theme
name, in document order. -/
structure ThemeState where
  currentTheme : String
  themeLinks : List String
deriving DecidableEq

/-- The synchronous part of switchTheme: the no-op guards (empty name, name
equal to the current theme, no current link element found) and otherwise
the insertion of the new stylesheet link right after the current one, which
starts the load while the old stylesheet stays in place. -/
def switchThemeBegin (st : ThemeState) (newTheme : String) : ThemeState :=
  if newTheme == "" || newTheme == st.currentTheme then st
  else
    match st.themeLinks with
    | [] => st
    | old :: rest => { st with themeLinks := old :: newTheme :: rest }

/-- switchTheme of customization.js, composed with the completion of the
started stylesheet load: on a successful load the onload handler removes
the old link and commits currentTheme to the new name; on a failed load the
onerror handler removes the just-inserted link and logs, leaving
currentTheme unchanged.  The no-op guards return the state unchanged for
either outcome flag. -/
def switchTheme (st : ThemeState) (newTheme : String) (loadSucceeds : Bool) :
    ThemeState :=
  if newTheme == "" || newTheme == st.currentTheme then st
  else
    match st.themeLinks with
    | [] => st
    | old :: rest =>
        if loadSucceeds then
          { currentTheme := newTheme, themeLinks := (old :: newTheme :: rest).erase old }
        else
          { st with themeLinks := (old :: newTheme :: rest).erase newTheme }

/- ===== customization.js : colors, presets ===== -/

/-- The style-panel state the color paths touch: the three CSS custom
property values on the document root, the three picker element values, the
three displayed value texts, and the roundedness CSS variable with the
slider element value and its displayed text. -/
structure StyleState where
  primaryVar : String
  secondaryVar : String
  accentVar : String
  primaryPicker : String
  secondaryPicker : String
  accentPicker : String
  primaryDisplay : String
  secondaryDisplay : String
  accentDisplay : String
  borderRadiusVar : String
  sliderValue : String
  sliderDisplay : String
deriving DecidableEq

/-- updatePrimaryColor of customization.js: set the primary-color CSS
variable to the argument as passed, and set the displayed value to the
argument uppercased.  No validation and no hash-prefixing occurs here. -/
def updatePrimaryColor (st : StyleState) (color : String) : StyleState :=
  { st with primaryVar := color, primaryDisplay := jsToUpperCase color }

/-- updateSecondaryColor of customization.js. -/
def updateSecondaryColor (st : StyleState) (color : String) : StyleState :=
  { st with secondaryVar := color, secondaryDisplay := jsToUpperCase color }

/-- updateAccentColor of customization.js. -/
def updateAccentColor (st : StyleState) (color : String) : StyleState :=
  { st with accentVar := color, accentDisplay := jsToUpperCase color }

/-- updateRoundedness of customization.js: write the value with the px
suffix to the CSS variable and to the slider's displayed text. -/
def updateRoundedness (st : StyleState) (value : String) : StyleState :=
  { st with borderRadiusVar := value ++ "px", sliderDisplay := value ++ "px" }

/-- updateDisplayValues of customization.js: refresh the three displayed
color values from the picker values (uppercased) and the slider's displayed
text from the slider value. -/
def updateDisplayValues (st : StyleState) : StyleState :=
  { st with
      primaryDisplay := jsToUpperCase st.primaryPicker
      secondaryDisplay := jsToUpperCase st.secondaryPicker
      accentDisplay := jsToUpperCase st.accentPicker
      sliderDisplay := st.sliderValue ++ "px" }

/-- A preset color scheme: the named triple of applyPreset's table. -/
structure PresetScheme where
  primary : String
  secondary : String
  accent : String
deriving DecidableEq

/-- The fixed preset catalog of applyPreset. -/
def presets : String → Option PresetScheme
  | "coffee" => some { primary := "#8B4513", secondary := "#D2691E", accent := "#F4E4C1" }
  | "modern" => some { primary := "#3B82F6", secondary := "#10B981", accent := "#F3F4F6" }
  | "earthy" => some { primary := "#059669", secondary := "#84CC16", accent := "#ECFDF5" }
  | "luxe" => some { primary := "#D97706", secondary := "#F59E0B", accent := "#FEF3C7" }
  | _ => none

/-- applyPreset of customization.js: on a catalog miss, log and return with
the state unchanged; on a hit, run the three single-color updaters, write
the preset values into the three pickers, then refresh the displayed
values together. -/
def applyPreset (st : StyleState) (presetName : String) : StyleState :=
  match presets presetName with
  | none => st
  | some preset =>
      let st1 := updatePrimaryColor st preset.primary
      let st2 := updateSecondaryColor st1 preset.secondary
      let st3 := updateAccentColor st2 preset.accent
      let st4 := { st3 with
                     primaryPicker := preset.primary
                     secondaryPicker := preset.secondary
                     accentPicker := preset.accent }
      updateDisplayValues st4

/-- hexToColor of customization.js (used only when initializing the pickers
from the computed CSS values): prefix a non-empty hash-less value with the
hash, and turn the empty value into the black fallback. -/
def hexToColor (hex : String) : String :=
  let hex1 := if hex != "" && !startsWithHash hex then "#" ++ hex else hex
  if hex1 == "" then "#000000" else hex1

/- ===== Concrete instances used by the witnesses ===== -/

def nameFieldOk : Field := { id := "name", typeTag := "text", required := true, value := "Jo" }

def nameFieldEmpty : Field := { id := "name", typeTag := "text", required := true, value := "" }

def emailFieldOk : Field := { id := "email", typeTag := "email", required := true, value := "jo@example.com" }

def zipFieldOk : Field := { id := "zip", typeTag := "text", required := true, value := "12345" }

def zipFieldBad : Field := { id := "zip", typeTag := "text", required := true, value := "1234" }

def interestFieldOk : Field := { id := "interest", typeTag := "select-one", required := true, value := "training" }

def radioFieldYes : Field := { id := "machine-yes", typeTag := "radio", required := false, value := "yes" }

def commentsFieldOk : Field := { id := "comments", typeTag := "textarea", required := false, value := "" }

/-- A fully valid form state. -/
def validFormState : FormState :=
  { fields :=
      { name := some nameFieldOk
        email := some emailFieldOk
        zip := some zipFieldOk
        interest := some interestFieldOk
        espressoMachine := some radioFieldYes
        comments := some commentsFieldOk }
    radioSelected := some radioFieldYes }

/-- The valid form state with the required name field emptied. -/
def invalidFormState : FormState :=
  { fields :=
      { name := some nameFieldEmpty
        email := some emailFieldOk
        zip := some zipFieldOk
        interest := some interestFieldOk
        espressoMachine := some radioFieldYes
        comments := some commentsFieldOk }
    radioSelected := some radioFieldYes }

/-- An environment in which the fetch raises a transport exception and the
storage write succeeds. -/
def envThrow : Env := { fetchThrows := true, storeSetFails := false }

/-- An environment in which nothing raises. -/
def envOk : Env := { fetchThrows := false, storeSetFails := false }

/-- A sample fallback-log record. -/
def sampleFormData : FormData :=
  { name := "Jo", email := "jo@example.com", zip := "12345",
    interest := "Training - Learn espresso & latte art",
    espresso_machine := "Yes, I have an espresso machine",
    comments := "", timestamp := "t0",
    source := "MyLocalBarista Landing Page" }

/-- The valid form state with no espresso-machine radio checked: the
tracked espressoMachine field is null and the fresh radio query finds
nothing. -/
def noRadioState : FormState :=
  { fields :=
      { name := some nameFieldOk
        email := some emailFieldOk
        zip := some zipFieldOk
        interest := some interestFieldOk
        espressoMachine := none
        comments := some commentsFieldOk }
    radioSelected := none }

/-- A sample style-panel state. -/
def sampleStyle : StyleState :=
  { primaryVar := "#8B4513", secondaryVar := "#D2691E", accentVar := "#F4E4C1",
    primaryPicker := "#8B4513", secondaryPicker := "#D2691E", accentPicker := "#F4E4C1",
    primaryDisplay := "#8B4513", secondaryDisplay := "#D2691E", accentDisplay := "#F4E4C1",
    borderRadiusVar := "8px", sliderValue := "8", sliderDisplay := "8px" }

/- ===== Helper lemmas ===== -/

/-- The skip pattern of validateForm's field loop agrees with validateField,
because validateField returns valid on a null field. -/
theorem validateField_match_eq (field : Option Field) :
    (match field with
      | none => true
      | some f => (validateField (some f)).1) = (validateField field).1 := by
  cases field <;> rfl

/-- A string extended on the left by the hash character is never empty. -/
theorem hashAppend_ne_empty (c : String) : "#" ++ c ≠ "" := by
  intro h
  have h2 := congrArg String.length h
  rw [String.length_append] at h2
  have h3 : ("#" : String).length = 1 := rfl
  have h4 : ("" : String).length = 0 := rfl
  omega

/-- A string that starts with the hash character is not empty. -/
theorem startsWithHash_ne_empty (c : String) (h : startsWithHash c = true) : c ≠ "" := by
  intro hc
  subst hc
  simp [startsWithHash] at h

/- ===== Claim theorems ===== -/

/-- C3: submit is single-flight: a trigger arriving while the busy flag
isSubmitting is set returns immediately: it performs no effect at all (in
particular no remote transmission and no fallback-log append) and leaves
the stored fallback content unchanged. -/
theorem submit_single_flight (st : FormState) (env : Env) (store : StoreContent)
    (now : String) : handleSubmit st true env store now = (true, store, []) := rfl

/-- C2: when validateForm fails, handleSubmit shows the aggregate error and
stops: the result is exactly the unchanged store with the clear-errors and
aggregate-error effects, so no network call is made and no record is
appended to the fallback log. -/
theorem submit_invalid_stops (st : FormState) (env : Env) (store : StoreContent)
    (now : String) (hval : validateForm st = false) :
    handleSubmit st false env store now =
      (false, store,
       [Event.clearAllErrors,
        Event.generalError "Please fix the errors above and try again"]) ∧
    (∀ u b, Event.fetchPost u b ∉ (handleSubmit st false env store now).2.2) ∧
    (∀ d, Event.storeAttempt d ∉ (handleSubmit st false env store now).2.2) := by
  have h : handleSubmit st false env store now =
      (false, store,
       [Event.clearAllErrors,
        Event.generalError "Please fix the errors above and try again"]) := by
    simp [handleSubmit, hval]
  refine ⟨h, fun u b hm => ?_, fun d hm => ?_⟩ <;> rw [h] at hm <;> simp at hm

theorem submit_invalid_stops_witness :
    validateForm invalidFormState = false ∧
    handleSubmit invalidFormState false envOk (StoreContent.arr []) "t0" =
      (false, StoreContent.arr [],
       [Event.clearAllErrors,
        Event.generalError "Please fix the errors above and try again"]) :=
  ⟨by decide,
   (submit_invalid_stops invalidFormState envOk (StoreContent.arr []) "t0" (by decide)).1⟩

/-- C1: every submission attempt that passes validation performs the
fallback append in both outcome paths of the remote transmission: the
resulting store is the append function's result whatever the fetch outcome
(and is exactly the old entries plus the new record when storage is
healthy), the append effect is in the trace, and on the transport-exception
path submitToGoogleForms rethrows while the append effect occurs before
the caller's handling of the rethrown exception. -/
theorem submit_fallback_always (st : FormState) (env : Env) (store : StoreContent)
    (now : String) (hval : validateForm st = true) :
    (handleSubmit st false env store now).2.1 =
      storeFormDataLocally (collectFormData st now) store env.storeSetFails ∧
    Event.storeAttempt (collectFormData st now) ∈
      (handleSubmit st false env store now).2.2 ∧
    (∀ l, env.storeSetFails = false → store = StoreContent.arr l →
      (handleSubmit st false env store now).2.1 =
        StoreContent.arr (l ++ [collectFormData st now])) ∧
    (env.fetchThrows = true →
      (submitToGoogleForms (collectFormData st now) env store).1 = Except.error () ∧
      eventBefore (Event.storeAttempt (collectFormData st now))
        Event.submissionErrorShown (handleSubmit st false env store now).2.2) := by
  cases hf : env.fetchThrows with
  | false =>
      refine ⟨?_, ?_, ?_, ?_⟩
      · simp [handleSubmit, hval, submitToGoogleForms, hf]
      · simp [handleSubmit, hval, submitToGoogleForms, hf]
      · intro l hsf hst
        subst hst
        simp [handleSubmit, hval, submitToGoogleForms, hf, storeFormDataLocally,
          storeParse, hsf]
      · intro hft
        simp at hft
  | true =>
      refine ⟨?_, ?_, ?_, ?_⟩
      · simp [handleSubmit, hval, submitToGoogleForms, hf]
      · simp [handleSubmit, hval, submitToGoogleForms, hf]
      · intro l hsf hst
        subst hst
        simp [handleSubmit, hval, submitToGoogleForms, hf, storeFormDataLocally,
          storeParse, hsf]
      · intro _
        refine ⟨by simp [submitToGoogleForms, hf], ?_⟩
        have htr : (handleSubmit st false env store now).2.2 =
            [Event.clearAllErrors, Event.setSubmitting true,
             Event.fetchPost GOOGLE_FORM_URL (googleFormBody (collectFormData st now)),
             Event.storeAttempt (collectFormData st now),
             Event.submissionErrorShown, Event.setSubmitting false] := by
          simp [handleSubmit, hval, submitToGoogleForms, hf]
        rw [eventBefore, htr]
        exact ⟨3, 4, by omega, rfl, rfl⟩

theorem submit_fallback_always_witness :
    validateForm validFormState = true ∧
    Event.storeAttempt (collectFormData validFormState "t0") ∈
      (handleSubmit validFormState false envThrow (StoreContent.arr []) "t0").2.2 ∧
    eventBefore (Event.storeAttempt (collectFormData validFormState "t0"))
      Event.submissionErrorShown
      (handleSubmit validFormState false envThrow (StoreContent.arr []) "t0").2.2 :=
  ⟨by decide,
   (submit_fallback_always validFormState envThrow (StoreContent.arr []) "t0"
      (by decide)).2.1,
   ((submit_fallback_always validFormState envThrow (StoreContent.arr []) "t0"
      (by decide)).2.2.2 rfl).2⟩

/-- C4 counterexample: on a corrupt existing log the new submission is NOT
appended: the stored content is left unchanged, contradicting the claim
that a corrupt log is treated as an empty sequence with the submission
still appended. -/
theorem store_corrupt_skips_append :
    storeFormDataLocally sampleFormData StoreContent.corrupt false =
      StoreContent.corrupt ∧
    storeFormDataLocally sampleFormData StoreContent.corrupt false ≠
      StoreContent.arr [sampleFormData] := by decide

/-- C4 amended: the fallback append never drops prior entries and never
raises; a missing log is treated as empty and the submission appended; but
a corrupt existing log leaves the stored content unchanged (the caught
parse failure skips the append). -/
theorem store_append_spec (formData : FormData) (store : StoreContent)
    (setItemFails : Bool) :
    (∀ l, store = StoreContent.arr l →
      ∃ rest, storeFormDataLocally formData store setItemFails =
        StoreContent.arr (l ++ rest)) ∧
    (setItemFails = false →
      storeFormDataLocally formData StoreContent.missing setItemFails =
        StoreContent.arr [formData]) ∧
    (∀ l, setItemFails = false → store = StoreContent.arr l →
      storeFormDataLocally formData store setItemFails =
        StoreContent.arr (l ++ [formData])) ∧
    storeFormDataLocally formData StoreContent.corrupt setItemFails =
      StoreContent.corrupt := by
  refine ⟨?_, ?_, ?_, ?_⟩
  · intro l hl
    subst hl
    cases setItemFails
    · exact ⟨[formData], by simp [storeFormDataLocally, storeParse]⟩
    · exact ⟨[], by simp [storeFormDataLocally, storeParse]⟩
  · intro h
    subst h
    rfl
  · intro l h hl
    subst h
    subst hl
    rfl
  · cases setItemFails <;> rfl

theorem store_append_spec_witness :
    storeFormDataLocally sampleFormData (StoreContent.arr [sampleFormData]) false =
      StoreContent.arr ([sampleFormData] ++ [sampleFormData]) ∧
    storeFormDataLocally sampleFormData StoreContent.missing false =
      StoreContent.arr [sampleFormData] :=
  ⟨(store_append_spec sampleFormData (StoreContent.arr [sampleFormData]) false).2.2.1
      [sampleFormData] rfl rfl,
   (store_append_spec sampleFormData StoreContent.missing false).2.1 rfl⟩

/-- C5: validateField is invalid exactly when one of the four rules is
violated, and on a required field with an empty trimmed value the message
is the required message.  The roles in the rules are the ones the code
dispatches on: the email pattern applies to fields of input type email,
and the zip and name rules to text inputs with those element ids. -/
theorem validateField_rules (f : Field) :
    ((validateField (some f)).1 = false ↔
      (f.required = true ∧ jsTrim f.value = "") ∨
      (f.typeTag = "email" ∧ jsTrim f.value ≠ "" ∧
        isValidEmail (jsTrim f.value) = false) ∨
      (f.typeTag = "text" ∧ f.id = "zip" ∧ jsTrim f.value ≠ "" ∧
        isValidZipCode (jsTrim f.value) = false) ∨
      (f.typeTag = "text" ∧ f.id = "name" ∧ jsTrim f.value ≠ "" ∧
        (jsTrim f.value).length < 2)) ∧
    (f.required = true → jsTrim f.value = "" →
      (validateField (some f)).2 = "This field is required") := by
  obtain ⟨fid, ftt, freq, fval⟩ := f
  by_cases hem : ftt = "email"
  · cases freq <;> by_cases hv : jsTrim fval = "" <;>
      by_cases hve : isValidEmail (jsTrim fval) = true <;>
      simp_all [validateField, hem, show ("email" : String) ≠ "text" from by decide]
  · by_cases htx : ftt = "text"
    · by_cases hz : fid = "zip" <;> by_cases hn : fid = "name" <;> cases freq <;>
        by_cases hv : jsTrim fval = "" <;>
        by_cases hvz : isValidZipCode (jsTrim fval) = true <;>
        by_cases hlen : (jsTrim fval).length < 2 <;>
        simp_all [validateField, htx, show ("text" : String) ≠ "email" from by decide,
          show ("zip" : String) ≠ "name" from by decide] <;>
        (split <;> simp_all)
    · cases freq <;> by_cases hv : jsTrim fval = "" <;>
        simp_all [validateField]

theorem validateField_rules_witness :
    (validateField (some zipFieldBad)).1 = false ∧
    (validateField (some zipFieldOk)).1 = true ∧
    (validateField (some nameFieldEmpty)).2 = "This field is required" := by
  refine ⟨?_, ?_, ?_⟩
  · exact (validateField_rules zipFieldBad).1.mpr
      (Or.inr (Or.inr (Or.inl ⟨rfl, rfl, by decide, by decide⟩)))
  · by_contra h
    have h2 := (validateField_rules zipFieldOk).1.mp (by
      cases h3 : (validateField (some zipFieldOk)).1
      · rfl
      · exact absurd h3 h)
    revert h2
    decide
  · exact (validateField_rules nameFieldEmpty).2 rfl (by decide)

/-- C6: switching to a different, non-empty theme name keeps the old
stylesheet present while the new one loads; a successful load removes the
old stylesheet and commits the new theme name, leaving exactly one theme
stylesheet; a failed load discards the attempted stylesheet and leaves the
whole state (in particular the committed theme) unchanged. -/
theorem switchTheme_spec (st : ThemeState) (newTheme : String)
    (hinv : st.themeLinks = [st.currentTheme])
    (hne : newTheme ≠ st.currentTheme) (hempty : newTheme ≠ "") :
    (switchThemeBegin st newTheme).themeLinks = [st.currentTheme, newTheme] ∧
    (switchThemeBegin st newTheme).currentTheme = st.currentTheme ∧
    switchTheme st newTheme true =
      { currentTheme := newTheme, themeLinks := [newTheme] } ∧
    switchTheme st newTheme false = st := by
  obtain ⟨cur, links⟩ := st
  dsimp only at hinv hne ⊢
  subst hinv
  have h1 : (newTheme == "") = false := by simp [hempty]
  have h2 : (newTheme == cur) = false := by simp [hne]
  have e1 : [cur, newTheme].erase cur = [newTheme] := by
    rw [List.erase_cons_head]
  have e2 : [cur, newTheme].erase newTheme = [cur] := by
    rw [List.erase_cons_tail, List.erase_cons_head]
    simp [Ne.symm hne]
  refine ⟨?_, ?_, ?_, ?_⟩
  · simp [switchThemeBegin, h1, h2]
  · simp [switchThemeBegin, h1, h2]
  · simp [switchTheme, h1, h2, e1]
  · simp [switchTheme, h1, h2, e2]

theorem switchTheme_spec_witness :
    (switchThemeBegin (ThemeState.mk "classic" ["classic"]) "modern").themeLinks =
      ["classic", "modern"] ∧
    switchTheme (ThemeState.mk "classic" ["classic"]) "modern" true =
      { currentTheme := "modern", themeLinks := ["modern"] } ∧
    switchTheme (ThemeState.mk "classic" ["classic"]) "modern" false =
      ThemeState.mk "classic" ["classic"] :=
  ⟨(switchTheme_spec (ThemeState.mk "classic" ["classic"]) "modern" rfl
      (by decide) (by decide)).1,
   (switchTheme_spec (ThemeState.mk "classic" ["classic"]) "modern" rfl
      (by decide) (by decide)).2.2.1,
   (switchTheme_spec (ThemeState.mk "classic" ["classic"]) "modern" rfl
      (by decide) (by decide)).2.2.2⟩

/-- C7: applying a preset whose name is not in the fixed catalog leaves the
whole style state unchanged (colors and displayed values included); a
catalog hit updates the three color variables to the preset's triple and
refreshes the three displayed values together. -/
theorem applyPreset_spec (st : StyleState) (presetName : String) :
    (presets presetName = none → applyPreset st presetName = st) ∧
    (∀ preset, presets presetName = some preset →
      (applyPreset st presetName).primaryVar = preset.primary ∧
      (applyPreset st presetName).secondaryVar = preset.secondary ∧
      (applyPreset st presetName).accentVar = preset.accent ∧
      (applyPreset st presetName).primaryDisplay = jsToUpperCase preset.primary ∧
      (applyPreset st presetName).secondaryDisplay = jsToUpperCase preset.secondary ∧
      (applyPreset st presetName).accentDisplay = jsToUpperCase preset.accent) := by
  constructor
  · intro h
    simp [applyPreset, h]
  · intro preset h
    simp [applyPreset, h, updatePrimaryColor, updateSecondaryColor, updateAccentColor,
      updateDisplayValues]

theorem applyPreset_spec_witness :
    applyPreset sampleStyle "not-a-real-preset" = sampleStyle ∧
    (applyPreset sampleStyle "coffee").primaryVar = "#8B4513" ∧
    (applyPreset sampleStyle "coffee").primaryDisplay = jsToUpperCase "#8B4513" :=
  ⟨(applyPreset_spec sampleStyle "not-a-real-preset").1 rfl,
   ((applyPreset_spec sampleStyle "coffee").2
      { primary := "#8B4513", secondary := "#D2691E", accent := "#F4E4C1" } rfl).1,
   ((applyPreset_spec sampleStyle "coffee").2
      { primary := "#8B4513", secondary := "#D2691E", accent := "#F4E4C1" } rfl).2.2.2.1⟩

/-- C8 counterexample: updatePrimaryColor applies its argument verbatim:
called with a hash-less color token it stores the value without any hash
prefix, contradicting the claim that the setters prefix a missing hash
before applying. -/
theorem color_setter_counterexample :
    (updatePrimaryColor sampleStyle "8B4513").primaryVar = "8B4513" ∧
    (updatePrimaryColor sampleStyle "8B4513").primaryVar ≠ "#8B4513" := by decide

/-- C8 amended: the three color setters perform no validation and no hash
prefixing: each applies the argument verbatim to the page variable and
sets the displayed value to the argument uppercased.  Hash prefixing of a
non-empty hash-less value (and the black fallback for the empty value) is
performed only by hexToColor, which the controller uses when initializing
the pickers from the computed CSS values, not in the setters. -/
theorem color_setters_spec (st : StyleState) (c : String) :
    updatePrimaryColor st c =
      { st with primaryVar := c, primaryDisplay := jsToUpperCase c } ∧
    updateSecondaryColor st c =
      { st with secondaryVar := c, secondaryDisplay := jsToUpperCase c } ∧
    updateAccentColor st c =
      { st with accentVar := c, accentDisplay := jsToUpperCase c } ∧
    (c ≠ "" → startsWithHash c = false → hexToColor c = "#" ++ c) ∧
    (startsWithHash c = true → hexToColor c = c) ∧
    hexToColor "" = "#000000" := by
  refine ⟨rfl, rfl, rfl, ?_, ?_, rfl⟩
  · intro h1 h2
    simp [hexToColor, h1, h2, hashAppend_ne_empty c]
  · intro h
    simp [hexToColor, h, startsWithHash_ne_empty c h]

theorem color_setters_spec_witness :
    hexToColor "8B4513" = "#" ++ "8B4513" ∧ hexToColor "#3B82F6" = "#3B82F6" :=
  ⟨(color_setters_spec sampleStyle "8B4513").2.2.2.1 (by decide) rfl,
   (color_setters_spec sampleStyle "#3B82F6").2.2.2.2.1 rfl⟩

/-- C9: every record the submission pipeline hands to the fallback append
carries the constant source marker, and its remote POST body consists of
exactly the six entry-id keys carrying the six form-field values: neither
the timestamp nor the source marker is posted. -/
theorem post_body_and_source_spec (st : FormState) (b : Bool) (env : Env)
    (store : StoreContent) (now : String) (d : FormData)
    (hmem : Event.storeAttempt d ∈ (handleSubmit st b env store now).2.2) :
    d.source = "MyLocalBarista Landing Page" ∧
    (googleFormBody d).map Prod.fst =
      ["entry.847057752", "entry.508055351", "entry.832508456",
       "entry.1561535688", "entry.1117044731", "entry.1572710206"] ∧
    (googleFormBody d).map Prod.snd =
      [d.name, d.email, d.zip, d.interest, d.espresso_machine, d.comments] := by
  refine ⟨?_, rfl, rfl⟩
  have hd : d = collectFormData st now := by
    cases b with
    | true => simp [handleSubmit] at hmem
    | false =>
        cases hv : validateForm st with
        | false => simp [handleSubmit, hv] at hmem
        | true =>
            cases hf : env.fetchThrows <;>
              simp [handleSubmit, hv, submitToGoogleForms, hf] at hmem <;>
              exact hmem
  subst hd
  rfl

theorem post_body_and_source_spec_witness :
    Event.storeAttempt sampleFormData ∈
      (handleSubmit validFormState false envOk (StoreContent.arr []) "t0").2.2 ∧
    sampleFormData.source = "MyLocalBarista Landing Page" :=
  ⟨by decide,
   (post_body_and_source_spec validFormState false envOk (StoreContent.arr []) "t0"
      sampleFormData (by decide)).1⟩

/-- C10: validateField on an absent (null) field returns valid with no
error message, and when the tracked espresso-machine field is null,
validateForm reduces to the conjunction of the other five fields'
validation with the radio presence check: the null field contributes
nothing and only the presence check can reject on its behalf. -/
theorem absent_fields_spec :
    validateField none = (true, "") ∧
    ∀ st : FormState, st.fields.espressoMachine = none →
      validateForm st =
        (([st.fields.name, st.fields.email, st.fields.zip, st.fields.interest,
           st.fields.comments].all fun field => (validateField field).1) &&
         st.radioSelected.isSome) := by
  refine ⟨rfl, ?_⟩
  intro st h
  cases hn : st.fields.name <;> cases he : st.fields.email <;>
    cases hz : st.fields.zip <;> cases hi : st.fields.interest <;>
    cases hc : st.fields.comments <;>
    simp [validateForm, fieldValues, h, hn, he, hz, hi, hc, validateField]

theorem absent_fields_spec_witness :
    noRadioState.fields.espressoMachine = none ∧
    validateForm noRadioState =
      (([noRadioState.fields.name, noRadioState.fields.email, noRadioState.fields.zip,
         noRadioState.fields.interest, noRadioState.fields.comments].all
          fun field => (validateField field).1) &&
       noRadioState.radioSelected.isSome) :=
  ⟨rfl, absent_fields_spec.2 noRadioState rfl⟩

end MyLocalBarista
